import Mathlib

/-!
# Verification of the `TCFProcessor` consent-resolution engine

Shallow embedding of `src/main.py` (class `TCFProcessor`).  The Python code
is dynamically typed; reference data is JSON, so field values are modelled
by the finite value type `GField` below and Python dicts by association
lists with unique keys (a Python `dict` cannot hold a duplicate key).
Python `set` values are modelled by canonical sorted duplicate-free lists
(`canon`), so that Python set equality coincides with list equality and
`sorted(list(s))` is the canonical list itself.

File I/O and JSON parsing (`_load_gvl` / `_load_cmp_list`) are modelled at
the branch level: an inductive type enumerates the outcome of
`open`+`json.load` exactly as the `try/except` arms of the source
distinguish them.  The external `iab_tcf.decode` collaborator is a
parameter `String → Except String ConsentObject` (`.error e` models a
raised exception with message `e`).

Error messages produced by the source are always non-empty strings, so the
Python truthiness test `if self.error_state` is modelled by `Option`
match (`none` = falsy).
-/

/-- A JSON field value stored in a vendor-catalog or CMP-registry entry. -/
inductive GField where
  | str (s : String)
  | int (n : Int)
  | bool (b : Bool)
  | intList (xs : List Int)
  | null
deriving DecidableEq, Repr

/-- One vendor-catalog (GVL) entry: the vendor's dict, as key/value pairs. -/
abbrev VendorEntry := List (String × GField)

/-- One CMP-registry entry: an opaque mapping, kept as key/value pairs. -/
abbrev CmpEntry := List (String × GField)

/-- Python `dict.get(key)` on a string-keyed dict: the binding of `key`,
if any.  (Keys are unique in a Python dict; lookup takes the first.) -/
def dget {α : Type} : List (String × α) → String → Option α
  | [], _ => none
  | (k, v) :: rest, key => if k = key then some v else dget rest key

/-- Model of `d.get(key, default)` for a string-valued field. -/
def getStrD (d : List (String × GField)) (key : String) (dflt : String) : String :=
  match dget d key with
  | some (GField.str s) => s
  | _ => dflt

/-- Model of `d.get(key, default)` for an integer-valued field. -/
def getIntD (d : List (String × GField)) (key : String) (dflt : Int) : Int :=
  match dget d key with
  | some (GField.int n) => n
  | _ => dflt

/-- Model of `d.get(key, [])` for an ID-list field. -/
def getIntListD (d : List (String × GField)) (key : String) : List Int :=
  match dget d key with
  | some (GField.intList xs) => xs
  | _ => []

/-- Model of `d.get(key, False)` for a boolean flag field. -/
def getBoolD (d : List (String × GField)) (key : String) : Bool :=
  match dget d key with
  | some (GField.bool b) => b
  | _ => false

/-- Model of `d.get(key, None)` for an optional integer field (`cookieMaxAgeSeconds`):
a JSON `null` stored value and an absent key both give `None`. -/
def getOptIntD (d : List (String × GField)) (key : String) : Option Int :=
  match dget d key with
  | some (GField.int n) => some n
  | _ => none

/-- Insert an integer into a sorted duplicate-free list, keeping it so. -/
def sinsert (x : Int) : List Int → List Int
  | [] => [x]
  | y :: ys => if x < y then x :: y :: ys else if x = y then y :: ys else y :: sinsert x ys

/-- Canonical form of a Python `set` of integers: the sorted ascending
duplicate-free list of its members.  `canon xs` models `set(xs)`, and
`sorted(list(set(xs)))` is `canon xs` itself. -/
def canon (xs : List Int) : List Int := xs.foldr sinsert []

/-- The Python set intersection `set(declared).intersection(set(required))`,
already in its canonical sorted-list rendering. -/
def interIds (required declared : List Int) : List Int :=
  canon (required.filter (fun i => decide (i ∈ declared)))

/-- A serialization-safe scalar metadata value, after `_safe_get`
normalization (datetimes rendered as text, bytes decoded to text). -/
inductive MetaVal where
  | null
  | int (n : Int)
  | str (s : String)
  | bool (b : Bool)
deriving DecidableEq, Repr

/-- The decoded consent record produced by the external `iab_tcf.decode`
collaborator.  An `Option` field models Python attribute presence
(`hasattr` / `getattr` with default): `none` means the attribute is absent.
`cmpId` is doubly optional: the attribute itself may be absent, and a
present attribute may hold `None`. -/
structure ConsentObject where
  consentedVendors : Option (List (Int × Bool))
  legitimateInterestVendors : Option (List (Int × Bool))
  cmpId : Option (Option Int)
  version : Option MetaVal
  created : Option MetaVal
  lastUpdated : Option MetaVal
  cmpVersion : Option MetaVal
  consentScreen : Option MetaVal
  vendorListVersion : Option MetaVal
  tcfPolicyVersion : Option MetaVal
  consentLanguage : Option MetaVal
  publisherCc : Option MetaVal
  isServiceSpecific : Option MetaVal
  purposeOneTreatment : Option MetaVal
  useNonStandardStacks : Option MetaVal
deriving DecidableEq, Repr

/-- Outcome of `open` + `json.load` + shape checks in `_load_gvl`, one
constructor per branch of the source's `try/except` and `.get('vendors')`
handling. -/
inductive GvlLoadResult where
  | fileNotFound                                   -- `FileNotFoundError`
  | jsonError                                      -- `json.JSONDecodeError`
  | rootNotDict                                    -- root not a dict: `.get` raises, caught by `except Exception`
  | noVendorsKey                                   -- dict without a `vendors` key: `.get('vendors', {})` gives `{}`
  | vendorsNotDict                                 -- `vendors` present but not a dict: `.items()` raises, caught
  | vendors (vs : List (String × VendorEntry))     -- `vendors` is a dict (JSON keys are already strings)
deriving DecidableEq, Repr

/-- Outcome of `open` + `json.load` + shape checks in `_load_cmp_list`. -/
inductive CmpLoadResult where
  | fileNotFound                                   -- `FileNotFoundError`
  | jsonError                                      -- `json.JSONDecodeError`
  | otherError                                     -- generic `except Exception`
  | rootNotDict                                    -- root is not a dict (explicit `isinstance` check)
  | cmpsKeyNotDict                                 -- `cmps` key present but its value is not a dict
  | cmps (cs : List (String × CmpEntry))           -- dict nested under the `cmps` key
  | rootDict (cs : List (String × CmpEntry))       -- no `cmps` key: the root dict itself is the mapping
deriving DecidableEq, Repr

/-- Model of `_load_gvl`: every failure branch downgrades to the empty index. -/
def loadGvl : GvlLoadResult → List (String × VendorEntry)
  | GvlLoadResult.vendors vs => vs
  | _ => []

/-- Model of `_load_cmp_list`: every failure branch downgrades to the empty index. -/
def loadCmpList : CmpLoadResult → List (String × CmpEntry)
  | CmpLoadResult.cmps cs => cs
  | CmpLoadResult.rootDict cs => cs
  | _ => []

/-- The GVL load outcomes that the source treats as load failures
(source absent, not parseable as the expected structure, or the expected
top-level collection missing/ill-shaped). -/
def isGvlLoadFailure : GvlLoadResult → Bool
  | GvlLoadResult.vendors _ => false
  | _ => true

/-- The CMP-list load outcomes that the source treats as load failures. -/
def isCmpLoadFailure : CmpLoadResult → Bool
  | CmpLoadResult.cmps _ => false
  | CmpLoadResult.rootDict _ => false
  | _ => true

/-- Error message recorded by `_decode_tcf` for an empty consent string. -/
def emptyConsentMsg : String := "Consent string is empty."

/-- Error message recorded by `_decode_tcf` when `decode` raises `e`. -/
def decodeFailMsg (e : String) : String := "Failed to decode TCF string: " ++ e

/-- Model of `_decode_tcf`: returns `(consent_object, error_state)`.  The external
decoder is a parameter; `.error e` models a raised exception. -/
def decodeTcf (s : String) (decoder : String → Except String ConsentObject) :
    Option ConsentObject × Option String :=
  if s = "" then (none, some emptyConsentMsg)
  else
    match decoder s with
    | Except.ok co => (some co, none)
    | Except.error e => (none, some (decodeFailMsg e))

/-- The processor state after `__init__`: the two reference indices, the
decoded consent record, and the permanent error condition. -/
structure TCFProcessor where
  consentString : String
  gvlVendorsDict : List (String × VendorEntry)
  cmpListDict : List (String × CmpEntry)
  consentObject : Option ConsentObject
  errorState : Option String
deriving DecidableEq, Repr

/-- Model of `TCFProcessor.__init__`: load both reference sources, decode the
consent string, record the error condition.  Total by construction. -/
def mkProcessor (s : String) (g : GvlLoadResult) (c : CmpLoadResult)
    (decoder : String → Except String ConsentObject) : TCFProcessor :=
  let d := decodeTcf s decoder
  { consentString := s
    gvlVendorsDict := loadGvl g
    cmpListDict := loadCmpList c
    consentObject := d.1
    errorState := d.2 }

/-- Model of `_get_vendor_gvl_data`: the vendor's GVL dict, or `{}` when the GVL is
empty or the vendor ID (in string form) is absent. -/
def getVendorGvlData (gvl : List (String × VendorEntry)) (vendorId : Int) : VendorEntry :=
  if gvl = [] then []
  else (dget gvl (toString vendorId)).getD []

/-- The fourteen-field vendor-detail record built by `_get_vendor_details`. -/
structure VendorDetails where
  id : Int
  name : String
  purposes : List Int
  legIntPurposes : List Int
  flexiblePurposes : List Int
  specialPurposes : List Int
  features : List Int
  specialFeatures : List Int
  policyUrl : String
  cookieMaxAgeSeconds : Option Int
  usesCookies : Bool
  cookieRefresh : Bool
  usesNonCookieAccess : Bool
  deviceStorageDisclosureUrl : String
deriving DecidableEq, Repr

/-- Model of `_get_vendor_details`: total, default-filled detail record for one
vendor ID.  Note the source's `elif not vendor_gvl_data` tests Python
truthiness of the entry dict, which is also false for a *present but
empty* entry. -/
def getVendorDetails (gvl : List (String × VendorEntry)) (vendorId : Int) : VendorDetails :=
  let d := getVendorGvlData gvl vendorId
  let name :=
    if gvl = [] then "unknown (GVL not loaded)"
    else if d = [] then "unknown (Not in GVL)"
    else getStrD d "name" "unknown"
  { id := getIntD d "id" vendorId
    name := name
    purposes := getIntListD d "purposes"
    legIntPurposes := getIntListD d "legIntPurposes"
    flexiblePurposes := getIntListD d "flexiblePurposes"
    specialPurposes := getIntListD d "specialPurposes"
    features := getIntListD d "features"
    specialFeatures := getIntListD d "specialFeatures"
    policyUrl := getStrD d "policyUrl" ""
    cookieMaxAgeSeconds := getOptIntD d "cookieMaxAgeSeconds"
    usesCookies := getBoolD d "usesCookies"
    cookieRefresh := getBoolD d "cookieRefresh"
    usesNonCookieAccess := getBoolD d "usesNonCookieAccess"
    deviceStorageDisclosureUrl := getStrD d "deviceStorageDisclosureUrl" "" }

/-- The metadata mapping built by `get_metadata` on the success path. -/
structure Metadata where
  tcfVersion : MetaVal
  created : MetaVal
  lastUpdated : MetaVal
  cmpId : MetaVal
  cmpVersion : MetaVal
  consentScreen : MetaVal
  vendorListVersion : MetaVal
  tcfPolicyVersion : MetaVal
  consentLanguage : MetaVal
  publisherCc : MetaVal
  isServiceSpecific : MetaVal
  purposeOneTreatment : MetaVal
  useNonStandardStacks : MetaVal
  initializationError : Option String
deriving DecidableEq, Repr

/-- Result shape of `get_metadata`: either `{'error': msg}` or the
metadata mapping. -/
inductive MetadataResult where
  | error (msg : String)
  | ok (m : Metadata)
deriving DecidableEq, Repr

/-- Model of `_safe_get` for a normalized scalar attribute (`getattr` default `None`). -/
def safeGetMeta (o : Option MetaVal) : MetaVal := o.getD MetaVal.null

/-- Model of `_safe_get('cmp_id')`: absent attribute or `None` value render as null. -/
def safeGetCmpId : Option (Option Int) → MetaVal
  | none => MetaVal.null
  | some none => MetaVal.null
  | some (some n) => MetaVal.int n

/-- Model of `get_metadata`. -/
def getMetadata (p : TCFProcessor) : MetadataResult :=
  match p.consentObject with
  | none =>
      MetadataResult.error
        (p.errorState.getD "Cannot get metadata, consent object not available (decoding may have failed).")
  | some co =>
      MetadataResult.ok
        { tcfVersion := safeGetMeta co.version
          created := safeGetMeta co.created
          lastUpdated := safeGetMeta co.lastUpdated
          cmpId := safeGetCmpId co.cmpId
          cmpVersion := safeGetMeta co.cmpVersion
          consentScreen := safeGetMeta co.consentScreen
          vendorListVersion := safeGetMeta co.vendorListVersion
          tcfPolicyVersion := safeGetMeta co.tcfPolicyVersion
          consentLanguage := safeGetMeta co.consentLanguage
          publisherCc := safeGetMeta co.publisherCc
          isServiceSpecific := safeGetMeta co.isServiceSpecific
          purposeOneTreatment := safeGetMeta co.purposeOneTreatment
          useNonStandardStacks := safeGetMeta co.useNonStandardStacks
          initializationError := p.errorState }

/-- The guarded consented-vendor-ID enumeration shared by both variants of
`get_consented_vendors`: `none` when a precondition fails (no consent
object, error condition set, or `consented_vendors` attribute missing). -/
def consentedIdsOf (p : TCFProcessor) : Option (List Int) :=
  match p.consentObject, p.errorState with
  | some co, none =>
      match co.consentedVendors with
      | some cvm => some (cvm.filterMap (fun q => if q.2 then some q.1 else none))
      | none => none
  | _, _ => none

/-- Model of `get_consented_vendors(include_details=False)`. -/
def getConsentedVendorsIds (p : TCFProcessor) : List Int :=
  (consentedIdsOf p).getD []

/-- Model of `get_consented_vendors(include_details=True)`. -/
def getConsentedVendorsDetails (p : TCFProcessor) : List VendorDetails :=
  match consentedIdsOf p with
  | none => []
  | some ids => ids.map (getVendorDetails p.gvlVendorsDict)

/-- Result shape of `get_cmp_details`, one constructor per return site of
the source (each carries the data the returned dict holds). -/
inductive CmpResult where
  | error (msg : String)          -- `{'error': msg}`
  | notSet (id : Option Int)      -- `{'id': cmp_id, 'name': 'unknown (CMP ID not set)'}`
  | listNotLoaded (id : Int)      -- `{'id', 'name': 'unknown (CMP list not loaded)', 'error'}`
  | notFound (id : Int)           -- `{'id', 'name': 'unknown (Not found in CMP list)', 'error'}`
  | found (entry : CmpEntry)      -- the registry entry, returned as stored
deriving DecidableEq, Repr

/-- Model of `get_cmp_details`.  The source's `if not cmp_id` is Python truthiness:
false exactly for `None` and `0`.  The source's final `if cmp_details` is
also truthiness: a present but *empty* registry entry takes the
not-found branch. -/
def getCmpDetails (p : TCFProcessor) : CmpResult :=
  match p.consentObject with
  | none =>
      CmpResult.error (p.errorState.getD "Cannot get CMP details, consent object not available.")
  | some co =>
      match co.cmpId with
      | none => CmpResult.error "Consent object missing cmp_id attribute."
      | some idv =>
          if idv = none ∨ idv = some 0 then CmpResult.notSet idv
          else
            let n := idv.getD 0
            if p.cmpListDict = [] then CmpResult.listNotLoaded n
            else
              match dget p.cmpListDict (toString n) with
              | some entry => if entry = [] then CmpResult.notFound n else CmpResult.found entry
              | none => CmpResult.notFound n

/-- Per-vendor payload of `get_vendors_using_legitimate_interest`. -/
structure LiInfo where
  name : String
  declaredLiPurposes : List Int
deriving DecidableEq, Repr

/-- Model of `get_vendors_using_legitimate_interest`. -/
def getVendorsUsingLegitimateInterest (p : TCFProcessor) : List (Int × LiInfo) :=
  match p.consentObject, p.errorState with
  | some co, none =>
      match co.legitimateInterestVendors with
      | some liMap =>
          liMap.filterMap (fun q =>
            if q.2 then
              let d := getVendorGvlData p.gvlVendorsDict q.1
              some (q.1, { name := getStrD d "name" "unknown"
                           declaredLiPurposes := getIntListD d "legIntPurposes" })
            else none)
      | none => []
  | _, _ => []

/-- Loop body of `_get_consented_vendors_matching_gvl_list` for one entry
`q = (vendor_id, consented)` of the consent map: skip non-consented
vendors, intersect the vendor's declared ID list with the required set,
apply the ANY/ALL qualification test, and emit
`(vendor_id, (name, matched_ids))` when it passes.  `matched_ids` is the
Python `sorted(list(intersection))`, i.e. the canonical intersection list;
the `require_all` set-equality test `intersection_ids == required_id_set`
becomes equality of canonical lists. -/
def matcherStep (gvl : List (String × VendorEntry)) (gvlListKey : String)
    (requiredIds : List Int) (requireAll : Bool) (q : Int × Bool) :
    Option (Int × String × List Int) :=
  if q.2 then
    let d := getVendorGvlData gvl q.1
    let declared := getIntListD d gvlListKey
    let inter := interIds requiredIds declared
    let passes : Bool :=
      if inter.isEmpty then false
      else if requireAll then decide (inter = canon requiredIds)
      else true
    if passes then some (q.1, (getStrD d "name" "unknown", inter)) else none
  else none

/-- Model of `_get_consented_vendors_matching_gvl_list`, the generalized matcher.
The dict build over the consent map is a `filterMap` of `matcherStep`
because consent-map keys are unique (Python dict). -/
def getConsentedVendorsMatchingGvlList (p : TCFProcessor) (gvlListKey : String)
    (requiredIds : List Int) (requireAll : Bool) : List (Int × String × List Int) :=
  match p.consentObject, p.errorState with
  | some co, none =>
      match co.consentedVendors with
      | some cvm =>
          if requiredIds.isEmpty then []
          else cvm.filterMap (matcherStep p.gvlVendorsDict gvlListKey requiredIds requireAll)
      | none => []
  | _, _ => []

/-- Model of `get_consented_vendors_for_purposes`. -/
def getConsentedVendorsForPurposes (p : TCFProcessor) (ids : List Int) (requireAll : Bool) :
    List (Int × String × List Int) :=
  getConsentedVendorsMatchingGvlList p "purposes" ids requireAll

/-- Model of `get_consented_vendors_for_special_purposes`. -/
def getConsentedVendorsForSpecialPurposes (p : TCFProcessor) (ids : List Int) (requireAll : Bool) :
    List (Int × String × List Int) :=
  getConsentedVendorsMatchingGvlList p "specialPurposes" ids requireAll

/-- Model of `get_consented_vendors_for_features`. -/
def getConsentedVendorsForFeatures (p : TCFProcessor) (ids : List Int) (requireAll : Bool) :
    List (Int × String × List Int) :=
  getConsentedVendorsMatchingGvlList p "features" ids requireAll

/-- Model of `get_consented_vendors_for_special_features`. -/
def getConsentedVendorsForSpecialFeatures (p : TCFProcessor) (ids : List Int) (requireAll : Bool) :
    List (Int × String × List Int) :=
  getConsentedVendorsMatchingGvlList p "specialFeatures" ids requireAll

/-- Model of `get_consented_vendors_for_flexible_purposes`. -/
def getConsentedVendorsForFlexiblePurposes (p : TCFProcessor) (ids : List Int) (requireAll : Bool) :
    List (Int × String × List Int) :=
  getConsentedVendorsMatchingGvlList p "flexiblePurposes" ids requireAll

/-- Result of `get_vendor_urls`: the two URL fields plus the optional
`error` diagnostic key. -/
structure VendorUrls where
  policyUrl : String
  deviceStorageDisclosureUrl : String
  error : Option String
deriving DecidableEq, Repr

/-- Model of `get_vendor_urls`.  Note: this method consults only the GVL index; it
does not check `consent_object` or `error_state`. -/
def getVendorUrls (p : TCFProcessor) (vendorId : Int) : VendorUrls :=
  if p.gvlVendorsDict = [] then
    { policyUrl := "", deviceStorageDisclosureUrl := ""
      error := some "GVL not loaded or empty" }
  else
    let d := getVendorGvlData p.gvlVendorsDict vendorId
    if d = [] then
      { policyUrl := "", deviceStorageDisclosureUrl := ""
        error := some ("Vendor ID " ++ toString vendorId ++ " not found in GVL") }
    else
      { policyUrl := getStrD d "policyUrl" ""
        deviceStorageDisclosureUrl := getStrD d "deviceStorageDisclosureUrl" ""
        error := none }

/-- Model of `_get_consented_vendors_by_gvl_flag`. -/
def getConsentedVendorsByGvlFlag (p : TCFProcessor) (gvlFlagKey : String) :
    List (Int × String) :=
  match p.consentObject, p.errorState with
  | some co, none =>
      match co.consentedVendors with
      | some cvm =>
          cvm.filterMap (fun q =>
            if q.2 then
              let d := getVendorGvlData p.gvlVendorsDict q.1
              if getBoolD d gvlFlagKey then some (q.1, getStrD d "name" "unknown") else none
            else none)
      | none => []
  | _, _ => []

/-- Model of `get_consented_vendors_using_cookies`. -/
def getConsentedVendorsUsingCookies (p : TCFProcessor) : List (Int × String) :=
  getConsentedVendorsByGvlFlag p "usesCookies"

/-- Model of `get_consented_vendors_using_non_cookie_access`. -/
def getConsentedVendorsUsingNonCookieAccess (p : TCFProcessor) : List (Int × String) :=
  getConsentedVendorsByGvlFlag p "usesNonCookieAccess"

/-! ## Concrete fixtures (used by witnesses and counterexamples) -/

/-- A consent record with the given vendor maps and CMP identifier and
ordinary scalar metadata, as the decoder would produce. -/
def mkSampleCO (cv li : Option (List (Int × Bool))) (cid : Option (Option Int)) : ConsentObject :=
  { consentedVendors := cv
    legitimateInterestVendors := li
    cmpId := cid
    version := some (MetaVal.int 2)
    created := some (MetaVal.str "2024-01-01T00:00:00+00:00")
    lastUpdated := some (MetaVal.str "2024-01-02T00:00:00+00:00")
    cmpVersion := some (MetaVal.int 1)
    consentScreen := some (MetaVal.int 0)
    vendorListVersion := some (MetaVal.int 3)
    tcfPolicyVersion := some (MetaVal.int 4)
    consentLanguage := some (MetaVal.str "EN")
    publisherCc := some (MetaVal.str "DE")
    isServiceSpecific := some (MetaVal.bool true)
    purposeOneTreatment := some (MetaVal.bool false)
    useNonStandardStacks := some (MetaVal.bool false) }

/-- The catalog of the spec's test scenario: vendor 10 declares purposes
`[1,3]`, vendor 30 declares purposes `[2]`. -/
def gvlScenario : List (String × VendorEntry) :=
  [("10", [("name", GField.str "Vendor Ten"), ("purposes", GField.intList [1, 3])]),
   ("30", [("name", GField.str "Vendor Thirty"), ("purposes", GField.intList [2])])]

/-- Consent record of the spec's test scenario:
`consentedVendors = {10: true, 20: false, 30: true}`. -/
def coScenario : ConsentObject :=
  mkSampleCO (some [(10, true), (20, false), (30, true)]) (some [(10, true)]) (some (some 7))

/-- Processor built from the scenario data. -/
def procScenario : TCFProcessor :=
  mkProcessor "CScenario" (GvlLoadResult.vendors gvlScenario)
    (CmpLoadResult.rootDict [("7", [("name", GField.str "Sample CMP")])])
    (fun _ => Except.ok coScenario)

/-- A one-vendor catalog whose entry carries only a name (for the name
three-way-state witness). -/
def gvlNamed : List (String × VendorEntry) := [("3", [("name", GField.str "Acme")])]

/-- A catalog entry whose own `id` field (99) disagrees with its key ("5"). -/
def gvlWithId : List (String × VendorEntry) := [("5", [("id", GField.int 99)])]

/-- Processor whose consent record carries CMP identifier 0 while the
registry does contain an entry under key "0". -/
def procCmpZero : TCFProcessor :=
  mkProcessor "CZero" GvlLoadResult.fileNotFound
    (CmpLoadResult.rootDict [("0", [("name", GField.str "Zero CMP")])])
    (fun _ => Except.ok (mkSampleCO (some []) (some []) (some (some 0))))

/-- Processor whose registry contains an *empty* mapping under key "7",
the key its consent record's CMP identifier points at. -/
def procCmpEmptyEntry : TCFProcessor :=
  mkProcessor "CEmpty" GvlLoadResult.fileNotFound
    (CmpLoadResult.rootDict [("7", [])])
    (fun _ => Except.ok (mkSampleCO (some []) (some []) (some (some 7))))

/-- A catalog carrying a policy URL for vendor 1. -/
def gvlUrlOnly : List (String × VendorEntry) :=
  [("1", [("policyUrl", GField.str "https://example.test/privacy")])]

/-- Processor built from an *empty* consent string (so the processor-fatal
error condition is set) over a loaded catalog. -/
def procFatalUrls : TCFProcessor :=
  mkProcessor "" (GvlLoadResult.vendors gvlUrlOnly) CmpLoadResult.fileNotFound
    (fun _ => Except.error "unused")

/-! ## State-passing forms of the public query methods

The Python method bodies perform no assignment to `self`, so the
translation of each method as an explicit state transformer returns its
result together with the unchanged processor state. -/

/-- Model of `get_metadata`, state-passing form. -/
def getMetadataRun (p : TCFProcessor) : MetadataResult × TCFProcessor :=
  (getMetadata p, p)

/-- Model of `get_consented_vendors(include_details=False)`, state-passing form. -/
def getConsentedVendorsIdsRun (p : TCFProcessor) : List Int × TCFProcessor :=
  (getConsentedVendorsIds p, p)

/-- Model of `get_consented_vendors(include_details=True)`, state-passing form. -/
def getConsentedVendorsDetailsRun (p : TCFProcessor) : List VendorDetails × TCFProcessor :=
  (getConsentedVendorsDetails p, p)

/-- Model of `get_cmp_details`, state-passing form. -/
def getCmpDetailsRun (p : TCFProcessor) : CmpResult × TCFProcessor :=
  (getCmpDetails p, p)

/-- Model of `get_vendors_using_legitimate_interest`, state-passing form. -/
def getVendorsUsingLegitimateInterestRun (p : TCFProcessor) :
    List (Int × LiInfo) × TCFProcessor :=
  (getVendorsUsingLegitimateInterest p, p)

/-- Model of `get_consented_vendors_for_purposes`, state-passing form. -/
def getConsentedVendorsForPurposesRun (p : TCFProcessor) (ids : List Int) (requireAll : Bool) :
    List (Int × String × List Int) × TCFProcessor :=
  (getConsentedVendorsForPurposes p ids requireAll, p)

/-- Model of `get_consented_vendors_for_special_purposes`, state-passing form. -/
def getConsentedVendorsForSpecialPurposesRun (p : TCFProcessor) (ids : List Int)
    (requireAll : Bool) : List (Int × String × List Int) × TCFProcessor :=
  (getConsentedVendorsForSpecialPurposes p ids requireAll, p)

/-- Model of `get_consented_vendors_for_features`, state-passing form. -/
def getConsentedVendorsForFeaturesRun (p : TCFProcessor) (ids : List Int) (requireAll : Bool) :
    List (Int × String × List Int) × TCFProcessor :=
  (getConsentedVendorsForFeatures p ids requireAll, p)

/-- Model of `get_consented_vendors_for_special_features`, state-passing form. -/
def getConsentedVendorsForSpecialFeaturesRun (p : TCFProcessor) (ids : List Int)
    (requireAll : Bool) : List (Int × String × List Int) × TCFProcessor :=
  (getConsentedVendorsForSpecialFeatures p ids requireAll, p)

/-- Model of `get_consented_vendors_for_flexible_purposes`, state-passing form. -/
def getConsentedVendorsForFlexiblePurposesRun (p : TCFProcessor) (ids : List Int)
    (requireAll : Bool) : List (Int × String × List Int) × TCFProcessor :=
  (getConsentedVendorsForFlexiblePurposes p ids requireAll, p)

/-- Model of `get_vendor_urls`, state-passing form. -/
def getVendorUrlsRun (p : TCFProcessor) (vendorId : Int) : VendorUrls × TCFProcessor :=
  (getVendorUrls p vendorId, p)

/-- Model of `get_consented_vendors_using_cookies`, state-passing form. -/
def getConsentedVendorsUsingCookiesRun (p : TCFProcessor) :
    List (Int × String) × TCFProcessor :=
  (getConsentedVendorsUsingCookies p, p)

/-- Model of `get_consented_vendors_using_non_cookie_access`, state-passing form. -/
def getConsentedVendorsUsingNonCookieAccessRun (p : TCFProcessor) :
    List (Int × String) × TCFProcessor :=
  (getConsentedVendorsUsingNonCookieAccess p, p)

/-! ## Helper lemmas: canonical set lists -/

theorem mem_sinsert {a x : Int} {l : List Int} : a ∈ sinsert x l ↔ a = x ∨ a ∈ l := by
  induction l with
  | nil => simp [sinsert]
  | cons y ys ih =>
    simp only [sinsert]
    split
    · simp [List.mem_cons]
    · split
      · next h2 =>
        subst h2
        simp [List.mem_cons]
      · simp only [List.mem_cons, ih]
        tauto

theorem sinsert_ne_nil {x : Int} {l : List Int} : sinsert x l ≠ [] := by
  cases l with
  | nil => simp [sinsert]
  | cons y ys =>
    simp only [sinsert]
    split
    · simp
    · split <;> simp

theorem sorted_sinsert {x : Int} {l : List Int} (hs : l.Sorted (· < ·)) :
    (sinsert x l).Sorted (· < ·) := by
  induction l with
  | nil => simp [sinsert]
  | cons y ys ih =>
    rw [List.sorted_cons] at hs
    simp only [sinsert]
    split
    · next h1 =>
      rw [List.sorted_cons]
      refine ⟨?_, ?_⟩
      · intro b hb
        rcases List.mem_cons.mp hb with rfl | hb'
        · exact h1
        · exact lt_trans h1 (hs.1 b hb')
      · rw [List.sorted_cons]
        exact hs
    · split
      · next h2 =>
        subst h2
        rw [List.sorted_cons]
        exact hs
      · next h1 h2 =>
        have hyx : y < x := lt_of_le_of_ne (not_lt.mp h1) (Ne.symm h2)
        rw [List.sorted_cons]
        refine ⟨?_, ih hs.2⟩
        intro b hb
        rcases mem_sinsert.mp hb with rfl | hb'
        · exact hyx
        · exact hs.1 b hb'

theorem canon_sorted (xs : List Int) : (canon xs).Sorted (· < ·) := by
  induction xs with
  | nil => simp [canon]
  | cons a t ih => exact sorted_sinsert ih

theorem mem_canon {a : Int} {xs : List Int} : a ∈ canon xs ↔ a ∈ xs := by
  induction xs with
  | nil => simp [canon]
  | cons b t ih =>
    show a ∈ sinsert b (canon t) ↔ _
    rw [mem_sinsert, ih]
    simp [List.mem_cons]

theorem canon_eq_nil_iff {xs : List Int} : canon xs = [] ↔ xs = [] := by
  cases xs with
  | nil => simp [canon]
  | cons b t =>
    constructor
    · intro h
      exact absurd h sinsert_ne_nil
    · intro h
      cases h

theorem sorted_lt_eq_of_mem_iff {l₁ l₂ : List Int} (h₁ : l₁.Sorted (· < ·))
    (h₂ : l₂.Sorted (· < ·)) (hm : ∀ a, a ∈ l₁ ↔ a ∈ l₂) : l₁ = l₂ := by
  haveI : IsAntisymm Int (· < ·) := IsAsymm.isAntisymm _
  exact List.eq_of_perm_of_sorted
    ((List.perm_ext_iff_of_nodup h₁.nodup h₂.nodup).mpr hm) h₁ h₂

theorem canon_eq_canon_of_mem_iff {xs ys : List Int} (hm : ∀ a, a ∈ xs ↔ a ∈ ys) :
    canon xs = canon ys :=
  sorted_lt_eq_of_mem_iff (canon_sorted xs) (canon_sorted ys)
    (fun a => by rw [mem_canon, mem_canon]; exact hm a)

theorem mem_interIds {a : Int} {req decl : List Int} :
    a ∈ interIds req decl ↔ a ∈ req ∧ a ∈ decl := by
  rw [interIds, mem_canon, List.mem_filter]
  simp

/-! ## Helper lemmas: construction -/

theorem decodeTcf_error_imp_none {s : String} {dec : String → Except String ConsentObject}
    {e : String} (h : (decodeTcf s dec).2 = some e) : (decodeTcf s dec).1 = none := by
  by_cases hs : s = ""
  · simp [decodeTcf, hs]
  · simp only [decodeTcf, hs, if_neg, ite_false] at h ⊢
    cases hdec : dec s with
    | ok co => rw [hdec] at h; simp at h
    | error e2 => rfl

theorem mkProcessor_error_imp_none {s : String} {g : GvlLoadResult} {c : CmpLoadResult}
    {dec : String → Except String ConsentObject} {e : String}
    (h : (mkProcessor s g c dec).errorState = some e) :
    (mkProcessor s g c dec).consentObject = none :=
  decodeTcf_error_imp_none h

example :
    getConsentedVendorsForPurposes procScenario [1, 2] false =
      [(10, ("Vendor Ten", [1])), (30, ("Vendor Thirty", [2]))] := by decide

example : getConsentedVendorsForPurposes procScenario [1, 2] true = [] := by decide

example : getConsentedVendorsForPurposes procScenario [1, 3] true =
    [(10, ("Vendor Ten", [1, 3]))] := by decide

example : getConsentedVendorsIds procScenario = [10, 30] := by decide

example : getCmpDetails procScenario = CmpResult.found [("name", GField.str "Sample CMP")] := by
  decide

example : (getVendorDetails gvlScenario 10).name = "Vendor Ten" := by decide

example : (getVendorDetails gvlScenario 99).name = "unknown (Not in GVL)" := by decide

example : (getVendorDetails [] 99).name = "unknown (GVL not loaded)" := by decide

example : (mkProcessor "" (GvlLoadResult.vendors gvlScenario) CmpLoadResult.fileNotFound
    (fun _ => Except.ok coScenario)).errorState = some emptyConsentMsg := by decide

/-! ## Shared lemmas for the claim theorems -/

theorem matcher_nil_required (p : TCFProcessor) (key : String) (rall : Bool) :
    getConsentedVendorsMatchingGvlList p key [] rall = [] := by
  cases hco : p.consentObject with
  | none => simp [getConsentedVendorsMatchingGvlList, hco]
  | some co =>
    cases herr : p.errorState with
    | some e => simp [getConsentedVendorsMatchingGvlList, hco, herr]
    | none =>
      cases hcv : co.consentedVendors with
      | none => simp [getConsentedVendorsMatchingGvlList, hco, herr, hcv]
      | some cvm => simp [getConsentedVendorsMatchingGvlList, hco, herr, hcv]

/-! ## Claim theorems -/

/-- C2: with an empty `requiredIds` input the generalized matcher — and
each of the five public purpose/feature queries built on it — returns the
empty mapping, for every catalog-list key, every `requireAll`, and every
processor state; it never "matches everything". -/
theorem matcher_empty_required_yields_empty (p : TCFProcessor) (key : String) (rall : Bool) :
    getConsentedVendorsMatchingGvlList p key [] rall = [] ∧
    getConsentedVendorsForPurposes p [] rall = [] ∧
    getConsentedVendorsForSpecialPurposes p [] rall = [] ∧
    getConsentedVendorsForFeatures p [] rall = [] ∧
    getConsentedVendorsForSpecialFeatures p [] rall = [] ∧
    getConsentedVendorsForFlexiblePurposes p [] rall = [] :=
  ⟨matcher_nil_required p key rall, matcher_nil_required p "purposes" rall,
   matcher_nil_required p "specialPurposes" rall, matcher_nil_required p "features" rall,
   matcher_nil_required p "specialFeatures" rall, matcher_nil_required p "flexiblePurposes" rall⟩

/-- C3: the vendor-detail resolver is total (a total function by
construction, returning all fourteen record fields for every vendor ID and
every catalog state) and fills each field that is missing from the catalog
entry — including when the entry or the whole index is absent, where every
lookup misses — from the fixed default table: the six ID-list fields
default to `[]`, the two URL fields to `""`, `cookieMaxAgeSeconds` to
`none`, and the three boolean flags to `false`. -/
theorem vendor_details_total_defaults (gvl : List (String × VendorEntry)) (v : Int) :
    (dget (getVendorGvlData gvl v) "purposes" = none →
      (getVendorDetails gvl v).purposes = []) ∧
    (dget (getVendorGvlData gvl v) "legIntPurposes" = none →
      (getVendorDetails gvl v).legIntPurposes = []) ∧
    (dget (getVendorGvlData gvl v) "flexiblePurposes" = none →
      (getVendorDetails gvl v).flexiblePurposes = []) ∧
    (dget (getVendorGvlData gvl v) "specialPurposes" = none →
      (getVendorDetails gvl v).specialPurposes = []) ∧
    (dget (getVendorGvlData gvl v) "features" = none →
      (getVendorDetails gvl v).features = []) ∧
    (dget (getVendorGvlData gvl v) "specialFeatures" = none →
      (getVendorDetails gvl v).specialFeatures = []) ∧
    (dget (getVendorGvlData gvl v) "policyUrl" = none →
      (getVendorDetails gvl v).policyUrl = "") ∧
    (dget (getVendorGvlData gvl v) "deviceStorageDisclosureUrl" = none →
      (getVendorDetails gvl v).deviceStorageDisclosureUrl = "") ∧
    (dget (getVendorGvlData gvl v) "cookieMaxAgeSeconds" = none →
      (getVendorDetails gvl v).cookieMaxAgeSeconds = none) ∧
    (dget (getVendorGvlData gvl v) "usesCookies" = none →
      (getVendorDetails gvl v).usesCookies = false) ∧
    (dget (getVendorGvlData gvl v) "cookieRefresh" = none →
      (getVendorDetails gvl v).cookieRefresh = false) ∧
    (dget (getVendorGvlData gvl v) "usesNonCookieAccess" = none →
      (getVendorDetails gvl v).usesNonCookieAccess = false) := by
  refine ⟨?_, ?_, ?_, ?_, ?_, ?_, ?_, ?_, ?_, ?_, ?_, ?_⟩ <;>
    (intro h; simp [getVendorDetails, getIntListD, getStrD, getBoolD, getOptIntD, h])

/-- C3 witness: on the empty catalog, every defaulted field of the record
for vendor 7 carries its table default. -/
theorem vendor_details_total_defaults_witness :
    (getVendorDetails [] 7).purposes = [] ∧ (getVendorDetails [] 7).legIntPurposes = [] ∧
    (getVendorDetails [] 7).flexiblePurposes = [] ∧
    (getVendorDetails [] 7).specialPurposes = [] ∧
    (getVendorDetails [] 7).features = [] ∧ (getVendorDetails [] 7).specialFeatures = [] ∧
    (getVendorDetails [] 7).policyUrl = "" ∧
    (getVendorDetails [] 7).deviceStorageDisclosureUrl = "" ∧
    (getVendorDetails [] 7).cookieMaxAgeSeconds = none ∧
    (getVendorDetails [] 7).usesCookies = false ∧
    (getVendorDetails [] 7).cookieRefresh = false ∧
    (getVendorDetails [] 7).usesNonCookieAccess = false := by
  have h := vendor_details_total_defaults [] 7
  exact ⟨h.1 rfl, h.2.1 rfl, h.2.2.1 rfl, h.2.2.2.1 rfl, h.2.2.2.2.1 rfl, h.2.2.2.2.2.1 rfl,
    h.2.2.2.2.2.2.1 rfl, h.2.2.2.2.2.2.2.1 rfl, h.2.2.2.2.2.2.2.2.1 rfl,
    h.2.2.2.2.2.2.2.2.2.1 rfl, h.2.2.2.2.2.2.2.2.2.2.1 rfl, h.2.2.2.2.2.2.2.2.2.2.2 rfl⟩

/-- C5: the `name` field of the vendor-detail record carries a three-way
state: the "GVL not loaded" placeholder whenever the catalog index is
empty; the "Not in GVL" placeholder whenever the index is non-empty but
the vendor ID is absent from it; and the catalog entry's own `name` field
when the entry is present and carries one. -/
theorem vendor_name_three_way (gvl : List (String × VendorEntry)) (v : Int) :
    (gvl = [] → (getVendorDetails gvl v).name = "unknown (GVL not loaded)") ∧
    (gvl ≠ [] → dget gvl (toString v) = none →
      (getVendorDetails gvl v).name = "unknown (Not in GVL)") ∧
    (∀ e s, dget gvl (toString v) = some e → dget e "name" = some (GField.str s) →
      (getVendorDetails gvl v).name = s) := by
  refine ⟨?_, ?_, ?_⟩
  · intro h
    simp [getVendorDetails, h]
  · intro hne hnone
    simp [getVendorDetails, getVendorGvlData, hne, hnone]
  · intro e s he hs
    have hne : gvl ≠ [] := by
      intro h
      rw [h] at he
      simp [dget] at he
    have hd : getVendorGvlData gvl v = e := by
      simp [getVendorGvlData, hne, he]
    have hene : e ≠ [] := by
      intro h
      rw [h] at hs
      simp [dget] at hs
    simp [getVendorDetails, hd, hne, hene, getStrD, hs]

/-- C5 witness: all three name states observed on concrete catalogs. -/
theorem vendor_name_three_way_witness :
    (getVendorDetails [] 4).name = "unknown (GVL not loaded)" ∧
    (getVendorDetails gvlNamed 4).name = "unknown (Not in GVL)" ∧
    (getVendorDetails gvlNamed 3).name = "Acme" :=
  ⟨(vendor_name_three_way [] 4).1 rfl,
   (vendor_name_three_way gvlNamed 4).2.1 (by decide) rfl,
   (vendor_name_three_way gvlNamed 3).2.2 [("name", GField.str "Acme")] "Acme" rfl rfl⟩

/-- C10: the `id` field of the detail record is the catalog entry's own
`id` field when the entry carries one, and the queried vendor ID when the
`id` key is absent (also when the entry or index is missing entirely). -/
theorem vendor_details_id_source (gvl : List (String × VendorEntry)) (v : Int) :
    (∀ n, dget (getVendorGvlData gvl v) "id" = some (GField.int n) →
      (getVendorDetails gvl v).id = n) ∧
    (dget (getVendorGvlData gvl v) "id" = none → (getVendorDetails gvl v).id = v) := by
  constructor
  · intro n h
    simp [getVendorDetails, getIntD, h]
  · intro h
    simp [getVendorDetails, getIntD, h]

/-- C10 witness: vendor 5's entry declares `id = 99`, so the record
reports 99, not the queried 5; on the empty catalog the queried ID is
reported. -/
theorem vendor_details_id_source_witness :
    (getVendorDetails gvlWithId 5).id = 99 ∧ (getVendorDetails [] 5).id = 5 :=
  ⟨(vendor_details_id_source gvlWithId 5).1 99 rfl,
   (vendor_details_id_source [] 5).2 rfl⟩

/-- C6: when the consent record is present and its CMP identifier is 0 (or
a present-but-`None` value), the CMP resolver returns the
`{id, name: "unknown (CMP ID not set)"}` placeholder without consulting
the registry index — the statement holds for every registry index,
including one containing an entry under key "0". -/
theorem cmp_id_zero_placeholder (p : TCFProcessor) (co : ConsentObject)
    (hco : p.consentObject = some co) :
    (co.cmpId = some (some 0) → getCmpDetails p = CmpResult.notSet (some 0)) ∧
    (co.cmpId = some none → getCmpDetails p = CmpResult.notSet none) := by
  constructor <;> (intro h; simp [getCmpDetails, hco, h])

/-- C6 witness: CMP identifier 0 yields the placeholder even though the
registry of `procCmpZero` holds an entry under key "0". -/
theorem cmp_id_zero_placeholder_witness :
    getCmpDetails procCmpZero = CmpResult.notSet (some 0) ∧
    dget procCmpZero.cmpListDict "0" = some [("name", GField.str "Zero CMP")] :=
  ⟨(cmp_id_zero_placeholder procCmpZero
      (mkSampleCO (some []) (some []) (some (some 0))) rfl).1 rfl,
   by decide⟩

/-- C7: every load failure of either reference source (file absent, JSON
unparseable, root not the expected structure, or the expected top-level
collection missing or ill-shaped) downgrades to the empty index;
construction is total (`mkProcessor` is a total function), and the
processor-fatal error condition is unaffected by load failures: it stays
unset whenever the consent string is non-empty and the decoder succeeds. -/
theorem load_failure_downgrades (s : String) (g : GvlLoadResult) (c : CmpLoadResult)
    (dec : String → Except String ConsentObject) :
    (isGvlLoadFailure g = true → (mkProcessor s g c dec).gvlVendorsDict = []) ∧
    (isCmpLoadFailure c = true → (mkProcessor s g c dec).cmpListDict = []) ∧
    (∀ co, s ≠ "" → dec s = Except.ok co → (mkProcessor s g c dec).errorState = none) := by
  refine ⟨?_, ?_, ?_⟩
  · intro h
    cases g with
    | vendors vs => simp [isGvlLoadFailure] at h
    | fileNotFound => rfl
    | jsonError => rfl
    | rootNotDict => rfl
    | noVendorsKey => rfl
    | vendorsNotDict => rfl
  · intro h
    cases c with
    | cmps cs => simp [isCmpLoadFailure] at h
    | rootDict cs => simp [isCmpLoadFailure] at h
    | fileNotFound => rfl
    | jsonError => rfl
    | otherError => rfl
    | rootNotDict => rfl
    | cmpsKeyNotDict => rfl
  · intro co hs hdec
    simp [mkProcessor, decodeTcf, hs, hdec]

/-- C7 witness: a missing GVL file and an unparseable CMP list both yield
empty indices, and the error condition stays unset for a decodable
non-empty consent string. -/
theorem load_failure_downgrades_witness :
    (mkProcessor "xyz" GvlLoadResult.fileNotFound CmpLoadResult.jsonError
      (fun _ => Except.ok coScenario)).gvlVendorsDict = [] ∧
    (mkProcessor "xyz" GvlLoadResult.fileNotFound CmpLoadResult.jsonError
      (fun _ => Except.ok coScenario)).cmpListDict = [] ∧
    (mkProcessor "xyz" GvlLoadResult.fileNotFound CmpLoadResult.jsonError
      (fun _ => Except.ok coScenario)).errorState = none := by
  have h := load_failure_downgrades "xyz" GvlLoadResult.fileNotFound CmpLoadResult.jsonError
    (fun _ => Except.ok coScenario)
  exact ⟨h.1 rfl, h.2.1 rfl, h.2.2 coScenario (by decide) rfl⟩

/-- C8 counterexample: the registry of `procCmpEmptyEntry` contains an
entry (an empty mapping) under key "7", the consent record's CMP
identifier is the non-zero 7, yet the resolver does not return that entry:
the source's `if cmp_details:` truthiness test sends a present-but-empty
entry to the not-found branch. -/
theorem cmp_found_verbatim_cex :
    dget procCmpEmptyEntry.cmpListDict "7" = some [] ∧
    getCmpDetails procCmpEmptyEntry = CmpResult.notFound 7 ∧
    getCmpDetails procCmpEmptyEntry ≠ CmpResult.found [] := by
  decide

/-- C8 (amended): when the consent record is present, its CMP identifier
is a non-zero `n`, and the registry contains a *non-empty* entry under
`n`'s string form, the resolver returns that entry verbatim, with no
fields added, removed, or reshaped. -/
theorem cmp_found_verbatim (p : TCFProcessor) (co : ConsentObject) (n : Int)
    (entry : CmpEntry) (hco : p.consentObject = some co)
    (hid : co.cmpId = some (some n)) (hn : n ≠ 0)
    (hent : dget p.cmpListDict (toString n) = some entry) (hne : entry ≠ []) :
    getCmpDetails p = CmpResult.found entry := by
  have hdict : p.cmpListDict ≠ [] := by
    intro hd
    rw [hd] at hent
    simp [dget] at hent
  simp [getCmpDetails, hco, hid, hn, hdict, hent, hne]

/-- C8 witness: the scenario processor's registry entry for CMP 7 is
returned exactly as stored. -/
theorem cmp_found_verbatim_witness :
    getCmpDetails procScenario = CmpResult.found [("name", GField.str "Sample CMP")] :=
  cmp_found_verbatim procScenario coScenario 7 [("name", GField.str "Sample CMP")]
    rfl rfl (by decide) rfl (by decide)

/-- C4 counterexample: with the processor-fatal error condition set (empty
consent string), `get_vendor_urls` — a public query method — neither
checks the condition nor returns its documented empty/placeholder shape:
over a loaded catalog it returns the vendor's real policy URL with no
error marker. -/
theorem fatal_error_checked_first_cex :
    procFatalUrls.errorState = some emptyConsentMsg ∧
    getVendorUrls procFatalUrls 1 =
      { policyUrl := "https://example.test/privacy"
        deviceStorageDisclosureUrl := ""
        error := none } := by
  decide

/-- C4 (amended): if the processor-fatal error condition is set on a
constructed processor, then every public query method *except*
`get_vendor_urls` returns its documented empty or placeholder result, for
every reference-data state and every argument; `get_vendor_urls` ignores
the condition and answers from the catalog alone (still without raising —
it is a total function). -/
theorem fatal_error_empty_results (s : String) (g : GvlLoadResult) (c : CmpLoadResult)
    (dec : String → Except String ConsentObject) (e : String)
    (h : (mkProcessor s g c dec).errorState = some e) :
    getMetadata (mkProcessor s g c dec) = MetadataResult.error e ∧
    getConsentedVendorsIds (mkProcessor s g c dec) = [] ∧
    getConsentedVendorsDetails (mkProcessor s g c dec) = [] ∧
    getCmpDetails (mkProcessor s g c dec) = CmpResult.error e ∧
    getVendorsUsingLegitimateInterest (mkProcessor s g c dec) = [] ∧
    (∀ key req rall, getConsentedVendorsMatchingGvlList (mkProcessor s g c dec) key req rall = []) ∧
    (∀ req rall, getConsentedVendorsForPurposes (mkProcessor s g c dec) req rall = [] ∧
      getConsentedVendorsForSpecialPurposes (mkProcessor s g c dec) req rall = [] ∧
      getConsentedVendorsForFeatures (mkProcessor s g c dec) req rall = [] ∧
      getConsentedVendorsForSpecialFeatures (mkProcessor s g c dec) req rall = [] ∧
      getConsentedVendorsForFlexiblePurposes (mkProcessor s g c dec) req rall = []) ∧
    (∀ key, getConsentedVendorsByGvlFlag (mkProcessor s g c dec) key = []) ∧
    getConsentedVendorsUsingCookies (mkProcessor s g c dec) = [] ∧
    getConsentedVendorsUsingNonCookieAccess (mkProcessor s g c dec) = [] := by
  have hn : (mkProcessor s g c dec).consentObject = none := mkProcessor_error_imp_none h
  have hmatch : ∀ key req rall,
      getConsentedVendorsMatchingGvlList (mkProcessor s g c dec) key req rall = [] := by
    intro key req rall
    simp [getConsentedVendorsMatchingGvlList, hn]
  have hflag : ∀ key, getConsentedVendorsByGvlFlag (mkProcessor s g c dec) key = [] := by
    intro key
    simp [getConsentedVendorsByGvlFlag, hn]
  refine ⟨?_, ?_, ?_, ?_, ?_, hmatch, ?_, hflag, hflag "usesCookies", hflag "usesNonCookieAccess"⟩
  · simp [getMetadata, hn, h]
  · simp [getConsentedVendorsIds, consentedIdsOf, hn]
  · simp [getConsentedVendorsDetails, consentedIdsOf, hn]
  · simp [getCmpDetails, hn, h]
  · simp [getVendorsUsingLegitimateInterest, hn]
  · intro req rall
    exact ⟨hmatch "purposes" req rall, hmatch "specialPurposes" req rall,
      hmatch "features" req rall, hmatch "specialFeatures" req rall,
      hmatch "flexiblePurposes" req rall⟩

/-- C4 witness: on a processor built from the empty consent string the
error condition is set, and the guarded query methods return their
documented empty/placeholder results. -/
theorem fatal_error_empty_results_witness :
    getMetadata procFatalUrls = MetadataResult.error emptyConsentMsg ∧
    getConsentedVendorsIds procFatalUrls = [] ∧
    getConsentedVendorsDetails procFatalUrls = [] ∧
    getCmpDetails procFatalUrls = CmpResult.error emptyConsentMsg ∧
    getVendorsUsingLegitimateInterest procFatalUrls = [] ∧
    getConsentedVendorsForPurposes procFatalUrls [1, 2] true = [] ∧
    getConsentedVendorsUsingCookies procFatalUrls = [] := by
  have h := fatal_error_empty_results "" (GvlLoadResult.vendors gvlUrlOnly)
    CmpLoadResult.fileNotFound (fun _ => Except.error "unused") emptyConsentMsg rfl
  exact ⟨h.1, h.2.1, h.2.2.1, h.2.2.2.1, h.2.2.2.2.1, (h.2.2.2.2.2.2.1 [1, 2] true).1,
    h.2.2.2.2.2.2.2.2.1⟩

theorem ne_nil_of_isEmpty_false {l : List Int} (h : l.isEmpty = false) : l ≠ [] := by
  intro hl
  rw [hl] at h
  simp at h

theorem isEmpty_false_of_ne_nil {l : List Int} (h : l ≠ []) : l.isEmpty = false := by
  cases l with
  | nil => exact absurd rfl h
  | cons a t => rfl

theorem interIds_sorted (req decl : List Int) : (interIds req decl).Sorted (· < ·) :=
  canon_sorted _

theorem matcherStep_none (gvl : List (String × VendorEntry)) (key : String)
    (req : List Int) (rall : Bool) (qv : Int) :
    matcherStep gvl key req rall (qv, false) = none := rfl

theorem matcherStep_true_eq (gvl : List (String × VendorEntry)) (key : String)
    (req : List Int) (rall : Bool) (qv : Int) :
    matcherStep gvl key req rall (qv, true) =
      if (if (interIds req (getIntListD (getVendorGvlData gvl qv) key)).isEmpty then false
          else if rall then
            decide (interIds req (getIntListD (getVendorGvlData gvl qv) key) = canon req)
          else true) = true
      then some (qv, (getStrD (getVendorGvlData gvl qv) "name" "unknown",
        interIds req (getIntListD (getVendorGvlData gvl qv) key)))
      else none := rfl

theorem matcherStep_eq_some {gvl : List (String × VendorEntry)} {key : String}
    {req : List Int} {rall : Bool} {q : Int × Bool} {v : Int} {nm : String} {mids : List Int}
    (h : matcherStep gvl key req rall q = some (v, nm, mids)) :
    q = (v, true) ∧
    nm = getStrD (getVendorGvlData gvl v) "name" "unknown" ∧
    mids = interIds req (getIntListD (getVendorGvlData gvl v) key) ∧
    mids.isEmpty = false ∧
    (rall = true → mids = canon req) := by
  rcases q with ⟨qv, qc⟩
  cases qc with
  | false => rw [matcherStep_none] at h; cases h
  | true =>
    rw [matcherStep_true_eq] at h
    by_cases hie : (interIds req (getIntListD (getVendorGvlData gvl qv) key)).isEmpty
    · rw [if_pos hie, if_neg (by simp)] at h
      exact Option.noConfusion h
    · have hie' : (interIds req (getIntListD (getVendorGvlData gvl qv) key)).isEmpty = false :=
        Bool.eq_false_iff.mpr hie
      rw [if_neg hie] at h
      cases rall with
      | false =>
        rw [if_neg Bool.false_ne_true, if_pos rfl] at h
        simp only [Option.some.injEq, Prod.mk.injEq] at h
        obtain ⟨rfl, rfl, rfl⟩ := h
        exact ⟨rfl, rfl, rfl, hie', fun hr => Bool.noConfusion hr⟩
      | true =>
        rw [if_pos rfl] at h
        by_cases heq : interIds req (getIntListD (getVendorGvlData gvl qv) key) = canon req
        · rw [decide_eq_true heq, if_pos rfl] at h
          simp only [Option.some.injEq, Prod.mk.injEq] at h
          obtain ⟨rfl, rfl, rfl⟩ := h
          exact ⟨rfl, rfl, rfl, hie', fun _ => heq⟩
        · rw [decide_eq_false heq, if_neg (by simp)] at h
          exact Option.noConfusion h

/-- C1: over a live processor (consent record present, no error condition,
consent map present and with unique keys, non-empty `requiredIds`), the
generalized matcher behaves as specified.  Soundness: every result entry
`(v, nm, mids)` comes from a consented vendor (`(v, true)` in the consent
map), its `mids` is exactly the sorted canonical intersection of
`requiredIds` with the vendor's declared ID list under the catalog-list
key, under ALL semantics `mids` equals the full `requiredIds` set (same
members), and under ANY semantics `mids` is non-empty and a subset of
`requiredIds`.  Completeness: a consented vendor with a non-empty
intersection appears in the result under ANY semantics, and one whose
intersection has the same members as `requiredIds` appears under ALL
semantics, each carrying its intersection as `matched_ids`. -/
theorem matcher_any_all_semantics (p : TCFProcessor) (key : String) (req : List Int)
    (rall : Bool) (co : ConsentObject) (cvm : List (Int × Bool))
    (hco : p.consentObject = some co) (herr : p.errorState = none)
    (hcv : co.consentedVendors = some cvm) (_hnd : (cvm.map Prod.fst).Nodup)
    (hreq : req ≠ []) :
    (∀ v nm mids, (v, nm, mids) ∈ getConsentedVendorsMatchingGvlList p key req rall →
      (v, true) ∈ cvm ∧
      mids = interIds req (getIntListD (getVendorGvlData p.gvlVendorsDict v) key) ∧
      (rall = true → ∀ a, a ∈ mids ↔ a ∈ req) ∧
      (rall = false → mids ≠ [] ∧ ∀ a, a ∈ mids → a ∈ req)) ∧
    (rall = false → ∀ v, (v, true) ∈ cvm →
      interIds req (getIntListD (getVendorGvlData p.gvlVendorsDict v) key) ≠ [] →
      ∃ nm, (v, nm, interIds req (getIntListD (getVendorGvlData p.gvlVendorsDict v) key)) ∈
        getConsentedVendorsMatchingGvlList p key req rall) ∧
    (rall = true → ∀ v, (v, true) ∈ cvm →
      (∀ a, a ∈ interIds req (getIntListD (getVendorGvlData p.gvlVendorsDict v) key) ↔
        a ∈ req) →
      ∃ nm, (v, nm, interIds req (getIntListD (getVendorGvlData p.gvlVendorsDict v) key)) ∈
        getConsentedVendorsMatchingGvlList p key req rall) := by
  have hie : req.isEmpty = false := isEmpty_false_of_ne_nil hreq
  have hunf : getConsentedVendorsMatchingGvlList p key req rall
      = cvm.filterMap (matcherStep p.gvlVendorsDict key req rall) := by
    simp [getConsentedVendorsMatchingGvlList, hco, herr, hcv, hie]
  refine ⟨?_, ?_, ?_⟩
  · intro v nm mids hmem
    rw [hunf] at hmem
    obtain ⟨q, hq, hstep⟩ := List.mem_filterMap.mp hmem
    obtain ⟨hq1, hnm, hmids, hie2, hall⟩ := matcherStep_eq_some hstep
    subst hq1
    refine ⟨hq, hmids, ?_, ?_⟩
    · intro hr
      have hcc : mids = canon req := hall hr
      intro a
      rw [hcc, mem_canon]
    · intro hr
      refine ⟨ne_nil_of_isEmpty_false hie2, ?_⟩
      intro a ha
      rw [hmids] at ha
      exact (mem_interIds.mp ha).1
  · intro hr v hv hinter
    subst hr
    have hie2 : (interIds req
        (getIntListD (getVendorGvlData p.gvlVendorsDict v) key)).isEmpty = false :=
      isEmpty_false_of_ne_nil hinter
    have hnie : ¬ ((interIds req
        (getIntListD (getVendorGvlData p.gvlVendorsDict v) key)).isEmpty = true) := by
      rw [hie2]
      exact Bool.false_ne_true
    refine ⟨getStrD (getVendorGvlData p.gvlVendorsDict v) "name" "unknown", ?_⟩
    rw [hunf]
    refine List.mem_filterMap.mpr ⟨(v, true), hv, ?_⟩
    rw [matcherStep_true_eq, if_neg hnie, if_neg Bool.false_ne_true, if_pos rfl]
  · intro hr v hv hmemiff
    subst hr
    have hceq : interIds req (getIntListD (getVendorGvlData p.gvlVendorsDict v) key)
        = canon req :=
      sorted_lt_eq_of_mem_iff (interIds_sorted _ _) (canon_sorted req)
        (fun a => (hmemiff a).trans mem_canon.symm)
    have hnnil : interIds req (getIntListD (getVendorGvlData p.gvlVendorsDict v) key) ≠ [] := by
      rw [hceq, Ne, canon_eq_nil_iff]
      exact hreq
    have hie2 : (interIds req
        (getIntListD (getVendorGvlData p.gvlVendorsDict v) key)).isEmpty = false :=
      isEmpty_false_of_ne_nil hnnil
    have hnie : ¬ ((interIds req
        (getIntListD (getVendorGvlData p.gvlVendorsDict v) key)).isEmpty = true) := by
      rw [hie2]
      exact Bool.false_ne_true
    refine ⟨getStrD (getVendorGvlData p.gvlVendorsDict v) "name" "unknown", ?_⟩
    rw [hunf]
    refine List.mem_filterMap.mpr ⟨(v, true), hv, ?_⟩
    rw [matcherStep_true_eq, if_neg hnie, if_pos rfl, decide_eq_true hceq, if_pos rfl]

/-- C1 witness: in the spec scenario, consented vendor 10 (declared
purposes `[1,3]`) qualifies under ANY semantics for required IDs `[1,2]`
and appears with its intersection as `matched_ids`. -/
theorem matcher_any_all_semantics_witness :
    ∃ nm, (10, nm, interIds [1, 2]
        (getIntListD (getVendorGvlData procScenario.gvlVendorsDict 10) "purposes")) ∈
      getConsentedVendorsMatchingGvlList procScenario "purposes" [1, 2] false := by
  have h := matcher_any_all_semantics procScenario "purposes" [1, 2] false coScenario
    [(10, true), (20, false), (30, true)] rfl rfl rfl (by decide) (by decide)
  exact h.2.1 rfl 10 (by decide) (by decide)

/-- C9: every public query method is a side-effect-free projection of the
processor state: in the state-passing translation, each method leaves the
state unchanged, and calling any method twice in succession with the same
arguments (the second call on the state the first call returned) yields an
identical result.  In particular no query mutates the consent record, the
catalog index, the registry index, or the error condition. -/
theorem queries_pure_idempotent (p : TCFProcessor) :
    ((getMetadataRun p).2 = p ∧
      (getMetadataRun (getMetadataRun p).2).1 = (getMetadataRun p).1) ∧
    ((getConsentedVendorsIdsRun p).2 = p ∧
      (getConsentedVendorsIdsRun (getConsentedVendorsIdsRun p).2).1 =
        (getConsentedVendorsIdsRun p).1) ∧
    ((getConsentedVendorsDetailsRun p).2 = p ∧
      (getConsentedVendorsDetailsRun (getConsentedVendorsDetailsRun p).2).1 =
        (getConsentedVendorsDetailsRun p).1) ∧
    ((getCmpDetailsRun p).2 = p ∧
      (getCmpDetailsRun (getCmpDetailsRun p).2).1 = (getCmpDetailsRun p).1) ∧
    ((getVendorsUsingLegitimateInterestRun p).2 = p ∧
      (getVendorsUsingLegitimateInterestRun (getVendorsUsingLegitimateInterestRun p).2).1 =
        (getVendorsUsingLegitimateInterestRun p).1) ∧
    (∀ ids rall, (getConsentedVendorsForPurposesRun p ids rall).2 = p ∧
      (getConsentedVendorsForPurposesRun
        (getConsentedVendorsForPurposesRun p ids rall).2 ids rall).1 =
        (getConsentedVendorsForPurposesRun p ids rall).1) ∧
    (∀ ids rall, (getConsentedVendorsForSpecialPurposesRun p ids rall).2 = p ∧
      (getConsentedVendorsForSpecialPurposesRun
        (getConsentedVendorsForSpecialPurposesRun p ids rall).2 ids rall).1 =
        (getConsentedVendorsForSpecialPurposesRun p ids rall).1) ∧
    (∀ ids rall, (getConsentedVendorsForFeaturesRun p ids rall).2 = p ∧
      (getConsentedVendorsForFeaturesRun
        (getConsentedVendorsForFeaturesRun p ids rall).2 ids rall).1 =
        (getConsentedVendorsForFeaturesRun p ids rall).1) ∧
    (∀ ids rall, (getConsentedVendorsForSpecialFeaturesRun p ids rall).2 = p ∧
      (getConsentedVendorsForSpecialFeaturesRun
        (getConsentedVendorsForSpecialFeaturesRun p ids rall).2 ids rall).1 =
        (getConsentedVendorsForSpecialFeaturesRun p ids rall).1) ∧
    (∀ ids rall, (getConsentedVendorsForFlexiblePurposesRun p ids rall).2 = p ∧
      (getConsentedVendorsForFlexiblePurposesRun
        (getConsentedVendorsForFlexiblePurposesRun p ids rall).2 ids rall).1 =
        (getConsentedVendorsForFlexiblePurposesRun p ids rall).1) ∧
    (∀ vid, (getVendorUrlsRun p vid).2 = p ∧
      (getVendorUrlsRun (getVendorUrlsRun p vid).2 vid).1 = (getVendorUrlsRun p vid).1) ∧
    ((getConsentedVendorsUsingCookiesRun p).2 = p ∧
      (getConsentedVendorsUsingCookiesRun (getConsentedVendorsUsingCookiesRun p).2).1 =
        (getConsentedVendorsUsingCookiesRun p).1) ∧
    ((getConsentedVendorsUsingNonCookieAccessRun p).2 = p ∧
      (getConsentedVendorsUsingNonCookieAccessRun
        (getConsentedVendorsUsingNonCookieAccessRun p).2).1 =
        (getConsentedVendorsUsingNonCookieAccessRun p).1) :=
  ⟨⟨rfl, rfl⟩, ⟨rfl, rfl⟩, ⟨rfl, rfl⟩, ⟨rfl, rfl⟩, ⟨rfl, rfl⟩,
   fun _ _ => ⟨rfl, rfl⟩, fun _ _ => ⟨rfl, rfl⟩, fun _ _ => ⟨rfl, rfl⟩,
   fun _ _ => ⟨rfl, rfl⟩, fun _ _ => ⟨rfl, rfl⟩, fun _ => ⟨rfl, rfl⟩,
   ⟨rfl, rfl⟩, ⟨rfl, rfl⟩⟩
